import Mathlib

/-!
Verification of the command-line script `scripts/get_musicbrainz_discid.py`.

The script is modelled as a pure function `run` over:
  - whether the external `discid` library can be loaded (the try/except
    around the module-level load),
  - the behaviour of the external provider `discid.read`, modelled as a
    function from device path to a `ProviderResult`,
  - the invoked program name (`sys.argv[0]`) and the positional arguments
    beyond it (`sys.argv[1:]`).

An invocation's observable behaviour is an `Outcome`: the lines printed to
the standard output stream, the lines printed to the error stream (each
`print` call appends a newline, so one list element per printed line), the
way the process ends, and how many times the provider was invoked.
-/

/-- Result of a call to the external provider `discid.read device`:
either a disc ID string, a `discid.DiscError` exception carrying a
message, or some other exception (any type not matched by the script's
`except discid.DiscError` handler). -/
inductive ProviderResult where
  | ok (discId : String)
  | discError (msg : String)
  | otherError (msg : String)
  deriving Repr, DecidableEq

/-- How the process ends: an explicit or implicit interpreter exit with a
status code (`sys.exit(1)`, or status 0 when the script runs off its end),
or an exception propagating uncaught out of the script. -/
inductive ScriptEnd where
  | exit (code : Nat)
  | uncaught (msg : String)
  deriving Repr, DecidableEq

/-- Observable behaviour of one invocation of the script. -/
structure Outcome where
  stdout : List String
  stderr : List String
  endState : ScriptEnd
  providerCalls : Nat
  deriving Repr, DecidableEq

/-- The two diagnostic lines printed to the error stream when the
`discid` library cannot be imported. -/
def depErrorLines : List String :=
  ["ERROR: python-discid not installed",
   "Install with: pip3 install --break-system-packages discid"]

/-- The usage line printed to the error stream when no device argument is
supplied; it interpolates the invoked program name (`sys.argv[0]`). -/
def usageLine (prog : String) : String :=
  "Usage: " ++ prog ++ " <device>"

/-- Shallow embedding of the whole script body: the dependency check, the
argument-count check (`len(sys.argv) < 2`, i.e. the positional argument
list beyond the program name is empty), the single `discid.read` call, and
the printing of its result or of the caught `DiscError`. -/
def run (discidAvailable : Bool) (provider : String → ProviderResult)
    (prog : String) (args : List String) : Outcome :=
  if discidAvailable then
    match args with
    | [] =>
      { stdout := [], stderr := [usageLine prog],
        endState := .exit 1, providerCalls := 0 }
    | device :: _ =>
      match provider device with
      | .ok discId =>
        { stdout := [discId], stderr := [],
          endState := .exit 0, providerCalls := 1 }
      | .discError msg =>
        { stdout := [], stderr := ["ERROR: " ++ msg],
          endState := .exit 1, providerCalls := 1 }
      | .otherError msg =>
        { stdout := [], stderr := [],
          endState := .uncaught msg, providerCalls := 1 }
  else
    { stdout := [], stderr := depErrorLines,
      endState := .exit 1, providerCalls := 0 }

/-- C1: for every invocation with a device-path argument where the provider
successfully returns a disc ID string s, the script prints exactly the line
s (each printed line is newline-terminated) to standard output, prints
nothing to the error stream, and terminates with exit status 0. -/
theorem c1_success_prints_id (provider : String → ProviderResult)
    (prog device s : String) (rest : List String)
    (h : provider device = .ok s) :
    run true provider prog (device :: rest) =
      { stdout := [s], stderr := [],
        endState := .exit 0, providerCalls := 1 } := by
  simp [run, h]

/-- Witness for C1: a concrete provider returning "abc123XYZ". -/
theorem c1_success_prints_id_witness :
    run true (fun _ => .ok "abc123XYZ") "prog" ["/dev/cdrom"] =
      { stdout := ["abc123XYZ"], stderr := [],
        endState := .exit 0, providerCalls := 1 } :=
  c1_success_prints_id (fun _ => .ok "abc123XYZ") "prog" "/dev/cdrom"
    "abc123XYZ" [] rfl

/-- C2: for every invocation with a device-path argument where the provider
fails with a disc-read error carrying message m, the script prints exactly
the line ERROR: m to the error stream, prints nothing to standard output,
and terminates with a non-zero (namely 1) exit status. -/
theorem c2_disc_error_reported (provider : String → ProviderResult)
    (prog device m : String) (rest : List String)
    (h : provider device = .discError m) :
    run true provider prog (device :: rest) =
      { stdout := [], stderr := ["ERROR: " ++ m],
        endState := .exit 1, providerCalls := 1 } := by
  simp [run, h]

/-- Witness for C2: a concrete provider failing with "no disc in drive". -/
theorem c2_disc_error_reported_witness :
    run true (fun _ => .discError "no disc in drive") "prog" ["/dev/cdrom"] =
      { stdout := [], stderr := ["ERROR: no disc in drive"],
        endState := .exit 1, providerCalls := 1 } :=
  c2_disc_error_reported (fun _ => .discError "no disc in drive") "prog"
    "/dev/cdrom" "no disc in drive" [] rfl

/-- C3 counterexample: an invocation with two positional arguments beyond
the program name does not produce a usage error: the provider is invoked
(once), the disc ID is printed to standard output, nothing is printed to
the error stream, and the exit status is 0 — refuting the claim that any
argument count other than exactly one yields a usage message on the error
stream, a non-zero status, and no provider call. -/
theorem c3_counterexample :
    run true (fun _ => .ok "abc123XYZ") "prog" ["/dev/sr0", "extra"] =
      { stdout := ["abc123XYZ"], stderr := [],
        endState := .exit 0, providerCalls := 1 } :=
  rfl

/-- C3 (amended): for every invocation with fewer than one positional
argument beyond the program name (the dependency being available), the
script emits the usage message to the error stream and terminates with a
non-zero status without invoking the provider; supplying more than one
positional argument is not a usage error. -/
theorem c3_usage_on_missing_arg (provider : String → ProviderResult)
    (prog : String) :
    run true provider prog [] =
      { stdout := [], stderr := [usageLine prog],
        endState := .exit 1, providerCalls := 0 } :=
  rfl

/-- C4: for every invocation where the provider library cannot be loaded,
the script prints the two diagnostic lines naming the missing dependency
(python-discid) and giving an installation hint (pip3 install ...) to the
error stream, prints nothing to standard output, never invokes the
provider, and terminates with status 1 — regardless of how many arguments
were supplied. -/
theorem c4_missing_dependency (provider : String → ProviderResult)
    (prog : String) (args : List String) :
    run false provider prog args =
      { stdout := [], stderr := depErrorLines,
        endState := .exit 1, providerCalls := 0 } :=
  rfl

/-- C5: for every invocation, the outputs are mutually exclusive: the exit
status is 0 exactly when a disc ID line was written to standard output, a
zero exit status implies nothing was written to the error stream, and it
never happens that both streams received output. -/
theorem c5_mutual_exclusion (avail : Bool)
    (provider : String → ProviderResult)
    (prog : String) (args : List String) :
    ((run avail provider prog args).endState = .exit 0 ↔
      (run avail provider prog args).stdout ≠ []) ∧
    ((run avail provider prog args).endState = .exit 0 →
      (run avail provider prog args).stderr = []) ∧
    ¬ ((run avail provider prog args).stdout ≠ [] ∧
       (run avail provider prog args).stderr ≠ []) := by
  cases avail with
  | false => simp [run, depErrorLines]
  | true =>
    cases args with
    | nil => simp [run]
    | cons device rest =>
      cases h : provider device <;> simp [run, h]

/-- Witness for C5 (the second conjunct has an implication): at a concrete
successful invocation, exit status 0 holds and the error stream is empty. -/
theorem c5_mutual_exclusion_witness :
    (run true (fun _ => .ok "abc") "p" ["d"]).stderr = [] :=
  (c5_mutual_exclusion true (fun _ => .ok "abc") "p" ["d"]).2.1 rfl

/-- C6: the exit status is exactly 0 on success and exactly 1 on each
failure path: missing dependency, missing argument, and disc-read error. -/
theorem c6_exit_codes (provider : String → ProviderResult)
    (prog device s m : String) (args rest : List String) :
    (run false provider prog args).endState = .exit 1 ∧
    (run true provider prog []).endState = .exit 1 ∧
    (provider device = .ok s →
      (run true provider prog (device :: rest)).endState = .exit 0) ∧
    (provider device = .discError m →
      (run true provider prog (device :: rest)).endState = .exit 1) := by
  refine ⟨rfl, rfl, ?_, ?_⟩ <;> intro h <;> simp [run, h]

/-- Witness for C6 at concrete providers for the success and disc-error
paths. -/
theorem c6_exit_codes_witness :
    (run true (fun _ => .ok "abc") "p" ["d"]).endState = .exit 0 ∧
    (run true (fun _ => .discError "no disc") "p" ["d"]).endState = .exit 1 :=
  ⟨(c6_exit_codes (fun _ => .ok "abc") "p" "d" "abc" "m" [] []).2.2.1 rfl,
   (c6_exit_codes (fun _ => .discError "no disc") "p" "d" "s" "no disc"
      [] []).2.2.2 rfl⟩

/-- C7: for every invocation with no arguments beyond the program name
(the dependency being available), the script prints to the error stream a
usage message that interpolates the invoked program name, prints nothing
to standard output, and exits with non-zero status 1. -/
theorem c7_usage_mentions_prog (provider : String → ProviderResult)
    (prog : String) :
    (run true provider prog []).stderr =
      ["Usage: " ++ prog ++ " <device>"] ∧
    (run true provider prog []).stdout = [] ∧
    (run true provider prog []).endState = .exit 1 :=
  ⟨rfl, rfl, rfl⟩

/-- C8: for every invocation, the provider is invoked at most once, and it
is invoked only when both the dependency check and the argument check have
passed; in particular a failed read is never retried. -/
theorem c8_provider_called_once (avail : Bool)
    (provider : String → ProviderResult)
    (prog : String) (args : List String) :
    (run avail provider prog args).providerCalls ≤ 1 ∧
    ((run avail provider prog args).providerCalls = 1 →
      avail = true ∧ args ≠ []) := by
  cases avail with
  | false => simp [run]
  | true =>
    cases args with
    | nil => simp [run]
    | cons device rest =>
      cases h : provider device <;> simp [run, h]

/-- Witness for C8 (its second conjunct has an implication): at a concrete
invocation that calls the provider, both checks indeed passed. -/
theorem c8_provider_called_once_witness :
    true = true ∧ (["d"] : List String) ≠ [] :=
  (c8_provider_called_once true (fun _ => .discError "busy") "p" ["d"]).2 rfl

/-- C9: an invocation with two or more positional arguments behaves exactly
as if only the first one had been supplied: the first argument is used as
the device path and the rest are silently ignored. -/
theorem c9_extra_args_ignored (avail : Bool)
    (provider : String → ProviderResult)
    (prog device : String) (rest : List String) :
    run avail provider prog (device :: rest) =
      run avail provider prog [device] := by
  cases avail <;> rfl

/-- C10: the handler around the provider call catches only the provider's
disc-read error type: a provider failure of any other kind produces no
ERROR diagnostic from the handler (the script itself writes nothing to
either stream) and the exception propagates uncaught out of the script. -/
theorem c10_other_exception_uncaught (provider : String → ProviderResult)
    (prog device m : String) (rest : List String)
    (h : provider device = .otherError m) :
    run true provider prog (device :: rest) =
      { stdout := [], stderr := [],
        endState := .uncaught m, providerCalls := 1 } := by
  simp [run, h]

/-- Witness for C10: a concrete provider raising a non-DiscError failure. -/
theorem c10_other_exception_uncaught_witness :
    run true (fun _ => .otherError "boom") "prog" ["/dev/cdrom"] =
      { stdout := [], stderr := [],
        endState := .uncaught "boom", providerCalls := 1 } :=
  c10_other_exception_uncaught (fun _ => .otherError "boom") "prog"
    "/dev/cdrom" "boom" [] rfl
